import Mathlib

/-!
Verification development for the HWT905 sensor pipeline.

Shallow embedding of the relevant code paths:
* `src/sensors/hwt905_protocol.py` — checksum and packet validity,
* `src/sensors/hwt905_data_decoder.py` — the buffer framer loop,
* `src/processing/algorithms/rls_integrator.py` — the RLS integrator,
* `src/processing/data_processor.py` — sample-by-sample processing,
* `src/core/async_data_manager.py` — the decoder thread step,
* `src/sensors/config/...` — register read and factory reset,
* `src/storage/storage_manager.py` — rotating CSV sink.

Bytes are modelled as `Nat` (real bytes are < 256; arithmetic that wraps in
the source carries an explicit `% 256`).  Floating point state is modelled
over `ℚ` (the source's float arithmetic is exact rational arithmetic on the
paths examined here, apart from rounding that none of the claims concerns).
-/

namespace HWT905

/-! ## Protocol constants (src/sensors/hwt905_constants.py) -/

def DATA_HEADER_BYTE : Nat := 0x55
def DATA_PACKET_LENGTH : Nat := 11
def COMMAND_HEADER_BYTE1 : Nat := 0xFF
def COMMAND_HEADER_BYTE2 : Nat := 0xAA
def REG_SAVE : Nat := 0x00
def REG_READADDR : Nat := 0x27
def REG_KEY : Nat := 0x69
def UNLOCK_KEY_VALUE_DATAL : Nat := 0x88
def UNLOCK_KEY_VALUE_DATAH : Nat := 0xB5
def SAVE_CONFIG_VALUE : Nat := 0x0000
def FACTORY_RESET_VALUE : Nat := 0x0001
def RESTART_SENSOR_VALUE : Nat := 0x00FF
def PACKET_TYPE_ACC : Nat := 0x51
def PACKET_TYPE_ANGLE : Nat := 0x53
def PACKET_TYPE_READ_REGISTER : Nat := 0x5F

/-! ## Checksum and packet validity (src/sensors/hwt905_protocol.py) -/

/-- `calculate_checksum`: `sum(data_bytes) & 0xFF`. -/
def calculate_checksum (data_bytes : List Nat) : Nat :=
  data_bytes.sum % 256

/-- `is_valid_data_packet`: length 11, header `0x55`, checksum of the first
ten bytes equal to the last byte. -/
def is_valid_data_packet (packet_bytes : List Nat) : Bool :=
  if packet_bytes.length ≠ DATA_PACKET_LENGTH then false
  else if packet_bytes.getD 0 0 ≠ DATA_HEADER_BYTE then false
  else if calculate_checksum packet_bytes.dropLast ≠ packet_bytes.getD 10 0 then false
  else true

/-! ## The framer loop (HWT905DataDecoder.read_one_packet, buffer part) -/

/-- `bytes.find` for the header byte: index of the first `0x55`, if any. -/
def find_header : List Nat → Option Nat
  | [] => none
  | b :: rest =>
    if b = DATA_HEADER_BYTE then some 0
    else (find_header rest).map (· + 1)

/-- Outcome of one pass over the framer's internal buffer. -/
inductive FramerResult where
  | nothing
  | packet (p : List Nat)
  | baudrate_mismatch (garbage : List Nat)
  deriving DecidableEq, Repr

/-- One iteration body of the `while len(buffer) >= 11` loop of
`read_one_packet`, with an explicit fuel parameter so the recursion is
structural (each loop iteration removes at least one byte from the buffer,
so `buf.length` units of fuel always suffice; with fuel `0` the buffer is
empty and the loop guard fails anyway). -/
def read_one_packet_go (fuel : Nat) (buf : List Nat) : List Nat × FramerResult :=
  match fuel with
  | 0 => (buf, .nothing)
  | fuel + 1 =>
    if buf.length < DATA_PACKET_LENGTH then (buf, .nothing)
    else
      match find_header buf with
      | none => ([], .nothing)
      | some i =>
        if 50 < i then ([], .baudrate_mismatch (buf.take i))
        else if DATA_PACKET_LENGTH ≤ buf.length - i then
          if is_valid_data_packet ((buf.drop i).take DATA_PACKET_LENGTH) then
            ((buf.drop i).drop DATA_PACKET_LENGTH,
              .packet ((buf.drop i).take DATA_PACKET_LENGTH))
          else
            read_one_packet_go fuel (buf.drop (i + 1))
        else (buf.drop i, .nothing)

/-- The `while len(buffer) >= 11` loop of `read_one_packet`, acting on the
internal byte buffer.  Returns the final buffer state together with the
produced result: a validated packet, a suspected-baudrate-mismatch error
(when more than 50 garbage bytes precede the header, in which case the
whole buffer is discarded), or nothing. -/
def read_one_packet_loop (buf : List Nat) : List Nat × FramerResult :=
  read_one_packet_go buf.length buf

/-! ## RLS integrator (src/processing/algorithms/rls_integrator.py)

State of one per-axis `RLSIntegrator`.  The 2×2 covariance matrix `P` and
the estimate `theta = [slope, intercept]` are stored componentwise. -/

structure RLSCore where
  theta_a : ℚ
  theta_b : ℚ
  p00 : ℚ
  p01 : ℚ
  p10 : ℚ
  p11 : ℚ
  deriving DecidableEq, Repr

structure RLSState where
  sample_frame_size : Nat
  calc_frame_size : Nat
  dt : ℚ
  filter_q : ℚ
  acc_buffer : List ℚ
  frame_count : Nat
  core : RLSCore
  warmup_frames : Nat
  deriving DecidableEq, Repr

/-- `RLSIntegrator.__init__`: zero buffers, `P = diag(1000, 1000)`,
`theta = [0, 0]`, `warmup_frames = 5`. -/
def mkRLSIntegrator (sample_frame_size calc_frame_multiplier : Nat)
    (dt filter_q : ℚ) : RLSState :=
  { sample_frame_size := sample_frame_size
    calc_frame_size := sample_frame_size * calc_frame_multiplier
    dt := dt
    filter_q := filter_q
    acc_buffer := List.replicate (sample_frame_size * calc_frame_multiplier) 0
    frame_count := 0
    core := { theta_a := 0, theta_b := 0, p00 := 1000, p01 := 0, p10 := 0, p11 := 1000 }
    warmup_frames := 5 }

/-- One RLS update at basis `phi = [t, 1]` and observation `y`
(the body of the `for i in range(n)` loop in `_remove_linear_trend_rls`).
When the gain denominator `q + phi·P·phi` is zero, the update is skipped
and the state is returned unchanged. -/
def rlsUpdatePoint (q t y : ℚ) (c : RLSCore) : RLSCore :=
  let y_pred := c.theta_a * t + c.theta_b
  let e := y - y_pred
  let pphi0 := c.p00 * t + c.p01
  let pphi1 := c.p10 * t + c.p11
  let denom := q + (t * pphi0 + 1 * pphi1)
  if denom = 0 then c
  else
    let k0 := pphi0 / denom
    let k1 := pphi1 / denom
    let phiP0 := t * c.p00 + 1 * c.p10
    let phiP1 := t * c.p01 + 1 * c.p11
    { theta_a := c.theta_a + k0 * e
      theta_b := c.theta_b + k1 * e
      p00 := (c.p00 - k0 * phiP0) / q
      p01 := (c.p01 - k0 * phiP1) / q
      p10 := (c.p10 - k1 * phiP0) / q
      p11 := (c.p11 - k1 * phiP1) / q }

/-- Fold the RLS update over the `(t, data)` points of the frame. -/
def rlsDetrendLoop (q : ℚ) : List (ℚ × ℚ) → RLSCore → RLSCore
  | [], c => c
  | (t, y) :: rest, c => rlsDetrendLoop q rest (rlsUpdatePoint q t y c)

/-- `_remove_linear_trend_rls`: update `(theta, P)` over every point, then
subtract the line fitted by the final `theta` from the data. -/
def remove_linear_trend_rls (q : ℚ) (data t : List ℚ) (c : RLSCore) :
    List ℚ × RLSCore :=
  let c' := rlsDetrendLoop q (t.zip data) c
  (List.zipWith (fun y ti => y - (c'.theta_a * ti + c'.theta_b)) data t, c')

/-- Trapezoidal cumulative integration:
`v[0] = 0`, `v[i] = v[i-1] + (a[i-1] + a[i])·dt/2`. -/
def trapezoidFrom (dt prev vprev : ℚ) : List ℚ → List ℚ
  | [] => []
  | a :: rest =>
    let v := vprev + (prev + a) * dt / 2
    v :: trapezoidFrom dt a v rest

def trapezoid (dt : ℚ) : List ℚ → List ℚ
  | [] => []
  | a :: rest => 0 :: trapezoidFrom dt a 0 rest

/-- The per-frame output triple `(disp_filtered, vel_filtered, acc_filtered)`. -/
structure FrameOutput where
  disp : List ℚ
  vel : List ℚ
  acc : List ℚ
  deriving DecidableEq, Repr

/-- `RLSIntegrator.process_frame`.  Empty frames return three empty arrays
without touching any state.  Non-empty frames are truncated to
`sample_frame_size`, `frame_count` is incremented, the ring buffer is
rolled, and then either the warmup branch returns all-zero outputs
(`frame_count < warmup_frames` tested *after* the increment) or the
buffer is integrated and detrended twice. -/
def process_frame (st : RLSState) (acc_frame : List ℚ) :
    FrameOutput × RLSState :=
  if acc_frame.length = 0 then (⟨[], [], []⟩, st)
  else
    let frame := if st.sample_frame_size < acc_frame.length
                 then acc_frame.take st.sample_frame_size else acc_frame
    let frame_len := frame.length
    let count := st.frame_count + 1
    let buffer := st.acc_buffer.drop frame_len ++ frame
    if count < st.warmup_frames then
      (⟨List.replicate frame_len 0, List.replicate frame_len 0,
        List.replicate frame_len 0⟩,
       { st with frame_count := count, acc_buffer := buffer })
    else
      let L := st.calc_frame_size
      let t_buffer := (List.range L).map (fun i => (i : ℚ) * st.dt)
      let vel_raw := trapezoid st.dt buffer
      let vd := remove_linear_trend_rls st.filter_q vel_raw t_buffer st.core
      let disp_raw := trapezoid st.dt vd.1
      let dd := remove_linear_trend_rls st.filter_q disp_raw t_buffer vd.2
      (⟨dd.1.drop (dd.1.length - frame_len),
        vd.1.drop (vd.1.length - frame_len),
        frame⟩,
       { st with frame_count := count, acc_buffer := buffer, core := dd.2 })

/-- Run `process_frame` over a list of frames, collecting the outputs. -/
def runFrames (st : RLSState) : List (List ℚ) → List FrameOutput × RLSState
  | [] => ([], st)
  | f :: fs =>
    let r := process_frame st f
    let rest := runFrames r.2 fs
    (r.1 :: rest.1, rest.2)

/-! ## Sensor data processor (src/processing/data_processor.py)

Model of `SensorDataProcessor` in the default configuration
`acc_filter_type = None` (no front-end filter).  The FFT branch of
`process_new_sample` only adds dominant-frequency fields to an output that
already exists; its numerical content is floating-point FFT and is
modelled here by the branch flag `fft_ready` (whether the
`len(buffer) >= n_fft_points` branch was taken).  The derived convenience
field `displacement_magnitude` (a real square root) is likewise not
modelled; neither affects whether the method returns `None` or a result. -/

structure ProcOutput where
  acc_x_filtered : ℚ
  acc_y_filtered : ℚ
  acc_z_filtered : ℚ
  vel_x : ℚ
  vel_y : ℚ
  vel_z : ℚ
  disp_x : ℚ
  disp_y : ℚ
  disp_z : ℚ
  rls_warmed_up : Bool
  fft_ready : Bool
  acc_x : ℚ
  acc_y : ℚ
  acc_z : ℚ
  deriving DecidableEq, Repr

structure ProcState where
  gravity_g : ℚ
  rls_sample_frame_size : Nat
  max_buffer_len : Nat
  fft_n_points : Nat
  bufX : List ℚ
  bufY : List ℚ
  bufZ : List ℚ
  intX : RLSState
  intY : RLSState
  intZ : RLSState
  deriving DecidableEq, Repr

/-- `SensorDataProcessor.__init__` (with `acc_filter_type = None`). -/
def mkSensorDataProcessor (dt_sensor gravity_g : ℚ)
    (rls_sample_frame_size rls_calc_frame_multiplier : Nat)
    (rls_filter_q : ℚ) (fft_n_points : Nat) : ProcState :=
  { gravity_g := gravity_g
    rls_sample_frame_size := rls_sample_frame_size
    max_buffer_len :=
      max (fft_n_points * 2) (rls_sample_frame_size * rls_calc_frame_multiplier)
    fft_n_points := fft_n_points
    bufX := []
    bufY := []
    bufZ := []
    intX := mkRLSIntegrator rls_sample_frame_size rls_calc_frame_multiplier
              dt_sensor rls_filter_q
    intY := mkRLSIntegrator rls_sample_frame_size rls_calc_frame_multiplier
              dt_sensor rls_filter_q
    intZ := mkRLSIntegrator rls_sample_frame_size rls_calc_frame_multiplier
              dt_sensor rls_filter_q }

/-- `collections.deque(maxlen=...).append`: keep the last `maxlen` items. -/
def dequeAppend (maxlen : Nat) (buf : List ℚ) (x : ℚ) : List ℚ :=
  (buf ++ [x]).drop ((buf ++ [x]).length - maxlen)

/-- `list(buffer)[-n:]`: the last `n` elements. -/
def lastN (n : Nat) (l : List ℚ) : List ℚ :=
  l.drop (l.length - n)

/-- `SensorDataProcessor.process_new_sample`.  Converts the g-unit sample
to m/s² (subtracting 1 g on z), appends it to the raw buffers, and — once
the buffer holds at least `rls_sample_frame_size` samples — runs the three
RLS integrators on the last frame and returns an output whose
`rls_warmed_up` flag records whether the x-integrator has reached its
warmup count. -/
def process_new_sample (st : ProcState) (acc_x_g acc_y_g acc_z_g : ℚ) :
    Option ProcOutput × ProcState :=
  let axm := acc_x_g * st.gravity_g
  let aym := acc_y_g * st.gravity_g
  let azm := (acc_z_g - 1) * st.gravity_g
  let bX := dequeAppend st.max_buffer_len st.bufX axm
  let bY := dequeAppend st.max_buffer_len st.bufY aym
  let bZ := dequeAppend st.max_buffer_len st.bufZ azm
  if st.rls_sample_frame_size ≤ bX.length then
    let rX := process_frame st.intX (lastN st.rls_sample_frame_size bX)
    let rY := process_frame st.intY (lastN st.rls_sample_frame_size bY)
    let rZ := process_frame st.intZ (lastN st.rls_sample_frame_size bZ)
    (some
      { acc_x_filtered := rX.1.acc.getLastD 0
        acc_y_filtered := rY.1.acc.getLastD 0
        acc_z_filtered := rZ.1.acc.getLastD 0
        vel_x := rX.1.vel.getLastD 0
        vel_y := rY.1.vel.getLastD 0
        vel_z := rZ.1.vel.getLastD 0
        disp_x := rX.1.disp.getLastD 0
        disp_y := rY.1.disp.getLastD 0
        disp_z := rZ.1.disp.getLastD 0
        rls_warmed_up := rX.2.warmup_frames ≤ rX.2.frame_count
        fft_ready := st.fft_n_points ≤ bX.length
        acc_x := acc_x_g
        acc_y := acc_y_g
        acc_z := acc_z_g },
     { st with bufX := bX, bufY := bY, bufZ := bZ,
               intX := rX.2, intY := rY.2, intZ := rZ.2 })
  else
    (none, { st with bufX := bX, bufY := bY, bufZ := bZ })

/-! ## Decoder thread step (src/core/async_data_manager.py, DecoderThread.run)

One dequeued packet, as seen after `decode_raw_packet`: an error flag, the
type byte and (for acceleration packets) the decoded acceleration triple. -/

structure PacketInfo where
  hasError : Bool
  ptype : Nat
  acc_x : ℚ
  acc_y : ℚ
  acc_z : ℚ
  deriving DecidableEq, Repr

inductive DecoderEvent where
  | dropped
  | handled (row : ℚ × ℚ × ℚ)
  deriving DecidableEq, Repr

/-- The per-packet branch of `DecoderThread.run`: error packets and every
packet whose type byte is not `PACKET_TYPE_ACC` are skipped; acceleration
packets are handled (stored and enqueued). -/
def decoder_step (p : PacketInfo) : DecoderEvent :=
  if p.hasError then .dropped
  else if p.ptype ≠ PACKET_TYPE_ACC then .dropped
  else .handled (p.acc_x, p.acc_y, p.acc_z)

/-- The decoder loop over a queue of decoded packets, collecting the rows
written to the decoded-data CSV sink (when storage is configured) and the
items put on the decoded-data queue (when the queue exists). -/
def decoder_run (storageConfigured queueConfigured : Bool) :
    List PacketInfo → List (ℚ × ℚ × ℚ) × List (ℚ × ℚ × ℚ)
  | [] => ([], [])
  | p :: rest =>
    let r := decoder_run storageConfigured queueConfigured rest
    match decoder_step p with
    | .dropped => r
    | .handled row =>
      ((if storageConfigured then row :: r.1 else r.1),
       (if queueConfigured then row :: r.2 else r.2))

/-- The acceleration samples of a packet stream, in arrival order. -/
def acc_samples (ps : List PacketInfo) : List (ℚ × ℚ × ℚ) :=
  ps.filterMap fun p =>
    if p.hasError then none
    else if p.ptype ≠ PACKET_TYPE_ACC then none
    else some (p.acc_x, p.acc_y, p.acc_z)

/-! ## Register read (src/sensors/config/readers/config_reader.py) -/

/-- The 5-byte read command `[0xFF, 0xAA, 0x27, reg & 0xFF, 0x00]`. -/
def read_register_command (register_address : Nat) : List Nat :=
  [COMMAND_HEADER_BYTE1, COMMAND_HEADER_BYTE2, REG_READADDR,
   register_address % 256, 0x00]

/-- A packet seen by `read_current_config` while it polls the decoder:
a `0x5F` register response (with its payload), any other decoded packet,
a checksum-mismatch error (logged and skipped), or the
`possible_baudrate_mismatch` error. -/
inductive RxPacket where
  | regResponse (payload : List Nat)
  | otherPacket
  | checksumError
  | baudMismatch
  deriving DecidableEq, Repr

/-- The polling loop of `read_current_config` over the packets received
before the timeout: the first `0x5F` response yields the first 16-bit
little-endian value of its payload (`(payload[1] << 8) | payload[0]`);
a baudrate-mismatch error raises `ValueError`; an exhausted stream
(timeout) yields `none`, not an error. -/
def scan_read_response : List RxPacket → Except Unit (Option Nat)
  | [] => .ok none
  | .regResponse payload :: _ =>
    if 2 ≤ payload.length then
      .ok (some (payload.getD 1 0 <<< 8 ||| payload.getD 0 0))
    else .ok none
  | .baudMismatch :: _ => .error ()
  | .otherPacket :: rest => scan_read_response rest
  | .checksumError :: rest => scan_read_response rest

/-! ## Factory reset (src/sensors/config/reset/factory_reset_operations.py,
src/sensors/config/operations/{unlock,save}_operations.py) -/

/-- `_send_write_command`'s wire format `FF AA ADDR DATAL DATAH`. -/
def write_command_bytes (register_address data_low data_high : Nat) : List Nat :=
  [COMMAND_HEADER_BYTE1, COMMAND_HEADER_BYTE2, register_address % 256,
   data_low % 256, data_high % 256]

def unlock_command : List Nat :=
  write_command_bytes REG_KEY UNLOCK_KEY_VALUE_DATAL UNLOCK_KEY_VALUE_DATAH

def factory_reset_command : List Nat :=
  write_command_bytes REG_SAVE (FACTORY_RESET_VALUE % 256)
    ((FACTORY_RESET_VALUE >>> 8) % 256)

def save_command : List Nat :=
  write_command_bytes REG_SAVE (SAVE_CONFIG_VALUE % 256)
    ((SAVE_CONFIG_VALUE >>> 8) % 256)

def restart_command : List Nat :=
  write_command_bytes REG_SAVE (RESTART_SENSOR_VALUE % 256)
    ((RESTART_SENSOR_VALUE >>> 8) % 256)

/-- `FactoryResetOperations.factory_reset`, with the serial link abstracted
as a success predicate on the command written (retries live inside
`_send_write_command` and are absorbed into `writeOk`).  Returns the
overall result together with the sequence of commands attempted, in
order; a failing step aborts the remainder. -/
def factory_reset (writeOk : List Nat → Bool) : Bool × List (List Nat) :=
  if !writeOk unlock_command then (false, [unlock_command])
  else if !writeOk factory_reset_command then
    (false, [unlock_command, factory_reset_command])
  else if !writeOk save_command then
    (false, [unlock_command, factory_reset_command, save_command])
  else if !writeOk restart_command then
    (false, [unlock_command, factory_reset_command, save_command, restart_command])
  else (true, [unlock_command, factory_reset_command, save_command, restart_command])

/-! ## Rotating CSV sink (src/storage/storage_manager.py)

Wall-clock time is an abstract `Nat`; a CSV file is its nominal start time
plus its rows (header rows kept distinct from data rows). -/

inductive CsvRow where
  | header
  | data (r : Nat)
  deriving DecidableEq, Repr

structure CsvFile where
  start : Nat
  rows : List CsvRow
  deriving DecidableEq, Repr

inductive ReconnStrategy where
  | new_file
  | continue_file
  deriving DecidableEq, Repr

structure StorageState where
  rotation : Nat
  strategy : ReconnStrategy
  closedFiles : List CsvFile
  current : Option CsvFile
  latestOnDisk : Option CsvFile
  deriving DecidableEq, Repr

/-- `close_current_file`. -/
def close_current_file (st : StorageState) : StorageState :=
  match st.current with
  | none => st
  | some f => { st with closedFiles := st.closedFiles ++ [f], current := none }

/-- `_open_new_file`: close the old file, open a fresh one whose recorded
start time is now, and write the header (exactly once, at open). -/
def open_new_file (st : StorageState) (now : Nat) : StorageState :=
  let st := close_current_file st
  { st with current := some { start := now, rows := [CsvRow.header] } }

/-- `_continue_existing_file`: reopen the most recent file in append mode,
recovering its start time from the file name; no header is written. -/
def continue_existing_file (st : StorageState) (f : CsvFile) : StorageState :=
  { st with current := some f, latestOnDisk := none }

/-- `StorageManager.write_data` at wall-clock time `now`: choose/rotate the
file first, then append the data row. -/
def write_data (st : StorageState) (now : Nat) (r : Nat) : StorageState :=
  let st1 :=
    match st.current with
    | none =>
      match st.strategy with
      | .continue_file =>
        match st.latestOnDisk with
        | some f =>
          let stc := continue_existing_file st f
          if f.start + st.rotation ≤ now then open_new_file stc now else stc
        | none => open_new_file st now
      | .new_file => open_new_file st now
    | some f =>
      if f.start + st.rotation ≤ now then open_new_file st now else st
  match st1.current with
  | some f => { st1 with current := some { f with rows := f.rows ++ [CsvRow.data r] } }
  | none => st1

/-- Number of header rows in a file. -/
def headerCount (f : CsvFile) : Nat :=
  f.rows.count CsvRow.header

/-! ## Concrete test vectors -/

/-- A valid acceleration packet: header `0x55`, type `0x51`, zero payload,
checksum `0x55 + 0x51 = 0xA6`. -/
def validAccPkt : List Nat :=
  [0x55, 0x51, 0, 0, 0, 0, 0, 0, 0, 0, 0xA6]

/-- 51 garbage bytes (none of them a header byte). -/
def garbage51 : List Nat :=
  List.replicate 51 0

/-- An RLS core whose gain denominator at `q = 1`, `t = 0` is zero:
`1 + (0·(P·φ)₀ + (P·φ)₁) = 1 + p11 = 0`. -/
def degenerateCore : RLSCore :=
  { theta_a := 0, theta_b := 0, p00 := 1000, p01 := 0, p10 := 0, p11 := -1 }

/-- A freshly constructed processor with `rls_sample_frame_size = 1`. -/
def procDemo : ProcState :=
  mkSensorDataProcessor (1/200) (980665/100000) 1 2 (9825/10000) 4

/-- A decoded ANGLE packet (type byte `0x53`), no decode error. -/
def anglePacketInfo : PacketInfo :=
  { hasError := false, ptype := 0x53, acc_x := 0, acc_y := 0, acc_z := 0 }

/-- A decoded ACCELERATION packet (type byte `0x51`). -/
def accPacketInfo : PacketInfo :=
  { hasError := false, ptype := 0x51, acc_x := 1, acc_y := 2, acc_z := 3 }

/-- A storage state with an open file that a write at time 10 must rotate. -/
def storageRotDemo : StorageState :=
  { rotation := 10, strategy := .new_file, closedFiles := [],
    current := some { start := 0, rows := [CsvRow.header, CsvRow.data 7] },
    latestOnDisk := none }

/-- A continue-mode storage state with a reusable file on disk. -/
def storageContDemo : StorageState :=
  { rotation := 10, strategy := .continue_file, closedFiles := [],
    current := none,
    latestOnDisk := some { start := 5, rows := [CsvRow.header, CsvRow.data 1] } }

/-! ## Helper lemmas -/

lemma is_valid_length {p : List Nat} (h : is_valid_data_packet p = true) :
    p.length = 11 := by
  unfold is_valid_data_packet at h
  split_ifs at h with h1
  simpa [DATA_PACKET_LENGTH] using h1

lemma is_valid_head {p : List Nat} (h : is_valid_data_packet p = true) :
    p.getD 0 0 = DATA_HEADER_BYTE := by
  unfold is_valid_data_packet at h
  split_ifs at h with h1 h2
  simpa using h2

lemma find_header_eq_none_iff (l : List Nat) :
    find_header l = none ↔ ∀ x ∈ l, x ≠ DATA_HEADER_BYTE := by
  induction l with
  | nil => simp [find_header]
  | cons b rest ih =>
    by_cases hb : b = DATA_HEADER_BYTE
    · simp [find_header, hb]
    · have hmap : (find_header rest).map (· + 1) = none ↔ find_header rest = none := by
        cases find_header rest <;> simp
      simp only [find_header, if_neg hb, hmap, List.mem_cons]
      rw [ih]
      constructor
      · rintro h x (rfl | hx)
        · exact hb
        · exact h x hx
      · intro h x hx
        exact h x (Or.inr hx)

lemma find_header_append {g l₂ : List Nat}
    (hg : ∀ x ∈ g, x ≠ DATA_HEADER_BYTE)
    (hne : l₂ ≠ []) (hhead : l₂.getD 0 0 = DATA_HEADER_BYTE) :
    find_header (g ++ l₂) = some g.length := by
  induction g with
  | nil =>
    cases l₂ with
    | nil => exact absurd rfl hne
    | cons b t =>
      simp only [List.getD_cons_zero] at hhead
      simp [find_header, hhead]
  | cons a g ih =>
    have ha : a ≠ DATA_HEADER_BYTE := hg a (List.mem_cons_self a g)
    have ih' := ih fun x hx => hg x (List.mem_cons_of_mem a hx)
    simp [find_header, ha, ih']

lemma read_one_packet_go_packet_valid :
    ∀ fuel buf buf' p,
      read_one_packet_go fuel buf = (buf', FramerResult.packet p) →
      is_valid_data_packet p = true := by
  intro fuel
  induction fuel with
  | zero =>
    intro buf buf' p h
    simp [read_one_packet_go] at h
  | succ n ih =>
    intro buf buf' p h
    rw [read_one_packet_go] at h
    split at h
    · simp at h
    · split at h
      · simp at h
      · split at h
        · simp at h
        · split at h
          · split at h
            · next h4 =>
              injection h with ha hb
              injection hb with hc
              exact hc ▸ h4
            · exact ih _ _ _ h
          · simp at h

lemma read_one_packet_go_fuel_irrel :
    ∀ f1 : Nat, ∀ buf : List Nat, ∀ f2 : Nat,
      buf.length ≤ f1 → buf.length ≤ f2 →
      read_one_packet_go f1 buf = read_one_packet_go f2 buf := by
  intro f1
  induction f1 with
  | zero =>
    intro buf f2 h1 h2
    have hb : buf = [] := List.eq_nil_of_length_eq_zero (Nat.le_zero.mp h1)
    subst hb
    cases f2 <;> simp [read_one_packet_go, DATA_PACKET_LENGTH]
  | succ n ih =>
    intro buf f2 h1 h2
    cases f2 with
    | zero =>
      have hb : buf = [] := List.eq_nil_of_length_eq_zero (Nat.le_zero.mp h2)
      subst hb
      simp [read_one_packet_go, DATA_PACKET_LENGTH]
    | succ m =>
      rw [read_one_packet_go, read_one_packet_go]
      by_cases hlen : buf.length < DATA_PACKET_LENGTH
      · simp [hlen]
      · simp only [if_neg hlen]
        cases hf : find_header buf with
        | none => rfl
        | some i =>
          by_cases h50 : 50 < i
          · simp [h50]
          · simp only [if_neg h50]
            by_cases hrem : DATA_PACKET_LENGTH ≤ buf.length - i
            · simp only [if_pos hrem]
              by_cases hv : is_valid_data_packet ((buf.drop i).take DATA_PACKET_LENGTH) = true
              · simp [hv]
              · simp only [hv, if_false, Bool.false_eq_true]
                apply ih
                · simp only [List.length_drop]
                  omega
                · simp only [List.length_drop]
                  have : DATA_PACKET_LENGTH = 11 := rfl
                  omega
            · simp [hrem]

/-- The loop equation of `read_one_packet_loop` (the fuel is invisible). -/
lemma read_one_packet_loop_eq (buf : List Nat) :
    read_one_packet_loop buf =
      if buf.length < DATA_PACKET_LENGTH then (buf, .nothing)
      else
        match find_header buf with
        | none => ([], .nothing)
        | some i =>
          if 50 < i then ([], .baudrate_mismatch (buf.take i))
          else if DATA_PACKET_LENGTH ≤ buf.length - i then
            if is_valid_data_packet ((buf.drop i).take DATA_PACKET_LENGTH) then
              ((buf.drop i).drop DATA_PACKET_LENGTH,
                .packet ((buf.drop i).take DATA_PACKET_LENGTH))
            else
              read_one_packet_loop (buf.drop (i + 1))
          else (buf.drop i, .nothing) := by
  unfold read_one_packet_loop
  cases buf with
  | nil => simp [read_one_packet_go, DATA_PACKET_LENGTH]
  | cons b t =>
    show read_one_packet_go (t.length + 1) (b :: t) = _
    rw [read_one_packet_go]
    by_cases h1 : (b :: t).length < DATA_PACKET_LENGTH
    · rw [if_pos h1, if_pos h1]
    · simp only [if_neg h1]
      cases hf : find_header (b :: t) with
      | none => rfl
      | some i =>
        by_cases h50 : 50 < i
        · simp [h50]
        · simp only [if_neg h50]
          by_cases hrem : DATA_PACKET_LENGTH ≤ (b :: t).length - i
          · simp only [if_pos hrem]
            by_cases hv : is_valid_data_packet (((b :: t).drop i).take DATA_PACKET_LENGTH) = true
            · simp [hv]
            · simp only [hv, if_false, Bool.false_eq_true]
              apply read_one_packet_go_fuel_irrel
              · simp only [List.length_drop, List.length_cons]
                omega
              · exact le_rfl
          · rw [if_neg hrem, if_neg hrem]

lemma getD_zero_append {p rest : List Nat} (hp : p ≠ []) :
    (p ++ rest).getD 0 0 = p.getD 0 0 := by
  cases p with
  | nil => exact absurd rfl hp
  | cons a t => simp

/-- No header byte in a long-enough buffer: the whole buffer is discarded. -/
lemma loop_no_header {buf : List Nat}
    (h11 : DATA_PACKET_LENGTH ≤ buf.length)
    (hno : ∀ x ∈ buf, x ≠ DATA_HEADER_BYTE) :
    read_one_packet_loop buf = ([], .nothing) := by
  rw [read_one_packet_loop_eq]
  rw [if_neg (by omega)]
  rw [(find_header_eq_none_iff buf).mpr hno]

/-- A valid packet preceded by at most 50 non-header garbage bytes is
extracted exactly, leaving the rest of the buffer. -/
lemma loop_valid_after_garbage {g p rest : List Nat}
    (hg : ∀ x ∈ g, x ≠ DATA_HEADER_BYTE) (h50 : g.length ≤ 50)
    (hv : is_valid_data_packet p = true) :
    read_one_packet_loop (g ++ (p ++ rest)) = (rest, .packet p) := by
  have hplen : p.length = 11 := is_valid_length hv
  have hpne : p ≠ [] := by
    intro h
    rw [h] at hplen
    simp at hplen
  have hhead : (p ++ rest).getD 0 0 = DATA_HEADER_BYTE := by
    rw [getD_zero_append hpne]
    exact is_valid_head hv
  have hf : find_header (g ++ (p ++ rest)) = some g.length :=
    find_header_append hg (by simp [hpne]) hhead
  have hL : (g ++ (p ++ rest)).length = g.length + (11 + rest.length) := by
    simp [hplen]
  rw [read_one_packet_loop_eq]
  have h1 : ¬ ((g ++ (p ++ rest)).length < DATA_PACKET_LENGTH) := by
    rw [hL]
    simp only [DATA_PACKET_LENGTH]
    omega
  rw [if_neg h1]
  simp only [hf]
  have h2 : ¬ (50 < g.length) := by omega
  rw [if_neg h2]
  have h3 : DATA_PACKET_LENGTH ≤ (g ++ (p ++ rest)).length - g.length := by
    rw [hL]
    simp only [DATA_PACKET_LENGTH]
    omega
  rw [if_pos h3]
  rw [List.drop_left]
  have hDP : DATA_PACKET_LENGTH = p.length := by rw [hplen]; rfl
  rw [hDP, List.take_left, List.drop_left, if_pos hv]

/-- An invalid candidate drops exactly the header byte and the search
repeats on the rest of the buffer. -/
lemma loop_invalid_step {buf : List Nat} {i : Nat}
    (hf : find_header buf = some i) (h50 : i ≤ 50)
    (hrem : DATA_PACKET_LENGTH ≤ buf.length - i)
    (hinv : is_valid_data_packet ((buf.drop i).take DATA_PACKET_LENGTH) = false) :
    read_one_packet_loop buf = read_one_packet_loop (buf.drop (i + 1)) := by
  rw [read_one_packet_loop_eq]
  have h1 : ¬ (buf.length < DATA_PACKET_LENGTH) := by
    simp only [DATA_PACKET_LENGTH] at hrem ⊢
    omega
  rw [if_neg h1]
  simp only [hf]
  rw [if_neg (by omega : ¬ 50 < i), if_pos hrem, hinv]
  simp

/-- More than 50 garbage bytes before the header: the whole buffer is
discarded and a baudrate-mismatch error is reported. -/
lemma loop_baud_mismatch {buf : List Nat} {i : Nat}
    (hf : find_header buf = some i) (h50 : 50 < i)
    (h11 : DATA_PACKET_LENGTH ≤ buf.length) :
    read_one_packet_loop buf = ([], .baudrate_mismatch (buf.take i)) := by
  rw [read_one_packet_loop_eq]
  rw [if_neg (by omega)]
  simp only [hf]
  rw [if_pos h50]

/-! ## Claim C1 -/

/-- C1: for every 11-byte string `b`, `is_valid_data_packet b` holds iff
`b[0] = 0x55` and the least-significant byte of the sum of the first ten
bytes equals `b[10]`; for any other length it is `false`; and the framer
never hands a packet failing this predicate to decoding. -/
theorem C1_valid_packet_characterization :
    (∀ b : List Nat, b.length = 11 →
        (is_valid_data_packet b = true ↔
          (b.getD 0 0 = 0x55 ∧ (b.take 10).sum % 256 = b.getD 10 0)))
    ∧ (∀ b : List Nat, b.length ≠ 11 → is_valid_data_packet b = false)
    ∧ (∀ buf buf' p, read_one_packet_loop buf = (buf', FramerResult.packet p) →
        is_valid_data_packet p = true) := by
  refine ⟨?_, ?_, ?_⟩
  · intro b hb
    have hdl : b.dropLast = b.take 10 := by
      rw [List.dropLast_eq_take, hb]
    unfold is_valid_data_packet calculate_checksum
    rw [hdl]
    rw [if_neg (by simp [hb, DATA_PACKET_LENGTH])]
    simp only [DATA_HEADER_BYTE]
    split_ifs with hh hc
    · exact ⟨fun h => absurd h (by simp), fun h => absurd h.1 hh⟩
    · exact ⟨fun h => absurd h (by simp), fun h => absurd h.2 hc⟩
    · exact ⟨fun _ => ⟨not_not.mp hh, not_not.mp hc⟩, fun _ => rfl⟩
  · intro b hb
    unfold is_valid_data_packet
    rw [if_pos (by simpa [DATA_PACKET_LENGTH] using hb)]
  · intro buf buf' p h
    exact read_one_packet_go_packet_valid buf.length buf buf' p h

/-- Witness for C1 at concrete inputs. -/
theorem C1_valid_packet_characterization_witness :
    (is_valid_data_packet validAccPkt = true ↔
      (validAccPkt.getD 0 0 = 0x55 ∧
        (validAccPkt.take 10).sum % 256 = validAccPkt.getD 10 0))
    ∧ is_valid_data_packet [0x55] = false :=
  ⟨C1_valid_packet_characterization.1 validAccPkt (by decide),
   C1_valid_packet_characterization.2.1 [0x55] (by decide)⟩

/-! ## Claim C2 -/

/-- C2 counterexample: a buffer of 51 garbage bytes followed by a valid
packet.  The buffer contains a header byte, and the 11-byte candidate at
the first header is valid, yet the framer discards the entire buffer
(reporting a suspected baudrate mismatch) instead of returning the
packet, contradicting the claim. -/
theorem C2_counterexample_garbage_over_50 :
    read_one_packet_loop (garbage51 ++ validAccPkt)
        = ([], FramerResult.baudrate_mismatch garbage51)
    ∧ find_header (garbage51 ++ validAccPkt) = some 51
    ∧ is_valid_data_packet
        (((garbage51 ++ validAccPkt).drop 51).take DATA_PACKET_LENGTH) = true
    ∧ read_one_packet_loop (garbage51 ++ validAccPkt)
        ≠ (([] : List Nat), FramerResult.packet validAccPkt) := by
  refine ⟨by decide, by decide, by decide, by decide⟩

/-- C2 (amended): for a buffer of length ≥ 11, (i) if it contains no header
byte it is discarded entirely and nothing is returned; (ii) if the first
header byte is preceded by at most 50 bytes of non-header garbage and the
11-byte candidate there is valid, exactly the garbage and those 11 bytes
are consumed and the packet is returned; (iii) if the candidate at the
first header (at index ≤ 50) is invalid, exactly one byte beyond the
header index is dropped and the search repeats; (iv) if more than 50
garbage bytes precede the first header, the whole buffer is discarded
and a baudrate-mismatch error is reported instead. -/
theorem C2_framer_step_characterization :
    (∀ buf : List Nat, DATA_PACKET_LENGTH ≤ buf.length →
        (∀ x ∈ buf, x ≠ DATA_HEADER_BYTE) →
        read_one_packet_loop buf = ([], FramerResult.nothing))
    ∧ (∀ g p rest : List Nat, (∀ x ∈ g, x ≠ DATA_HEADER_BYTE) →
        g.length ≤ 50 → is_valid_data_packet p = true →
        read_one_packet_loop (g ++ (p ++ rest)) = (rest, FramerResult.packet p))
    ∧ (∀ (buf : List Nat) (i : Nat), find_header buf = some i → i ≤ 50 →
        DATA_PACKET_LENGTH ≤ buf.length - i →
        is_valid_data_packet ((buf.drop i).take DATA_PACKET_LENGTH) = false →
        read_one_packet_loop buf = read_one_packet_loop (buf.drop (i + 1)))
    ∧ (∀ (buf : List Nat) (i : Nat), find_header buf = some i → 50 < i →
        DATA_PACKET_LENGTH ≤ buf.length →
        read_one_packet_loop buf = ([], FramerResult.baudrate_mismatch (buf.take i))) := by
  refine ⟨?_, ?_, ?_, ?_⟩
  · intro buf h11 hno
    exact loop_no_header h11 hno
  · intro g p rest hg h50 hv
    exact loop_valid_after_garbage hg h50 hv
  · intro buf i hf h50 hrem hinv
    exact loop_invalid_step hf h50 hrem hinv
  · intro buf i hf h50 h11
    exact loop_baud_mismatch hf h50 h11

/-- Witness for C2 (amended) at concrete inputs. -/
theorem C2_framer_step_characterization_witness :
    read_one_packet_loop ([0, 0, 0] ++ (validAccPkt ++ [1, 2]))
      = ([1, 2], FramerResult.packet validAccPkt) :=
  C2_framer_step_characterization.2.1 [0, 0, 0] validAccPkt [1, 2]
    (by decide) (by decide) (by decide)

/-! ## Claims C3, C8, C10: the RLS integrator -/

lemma process_frame_warmup_branch {st : RLSState} {f : List ℚ}
    (hne : f ≠ []) (hlen : f.length ≤ st.sample_frame_size)
    (hc : st.frame_count + 1 < st.warmup_frames) :
    process_frame st f =
      (⟨List.replicate f.length 0, List.replicate f.length 0,
        List.replicate f.length 0⟩,
       { st with frame_count := st.frame_count + 1,
                 acc_buffer := st.acc_buffer.drop f.length ++ f }) := by
  simp only [process_frame]
  rw [if_neg (fun h => hne (List.length_eq_zero.mp h))]
  rw [if_neg (Nat.not_lt.mpr hlen)]
  rw [if_pos hc]

lemma runFrames_warmup (fs : List (List ℚ)) :
    ∀ st : RLSState,
      (∀ f ∈ fs, f ≠ [] ∧ f.length ≤ st.sample_frame_size) →
      st.frame_count + fs.length < st.warmup_frames →
      (runFrames st fs).1
          = fs.map (fun f => ⟨List.replicate f.length 0, List.replicate f.length 0,
                              List.replicate f.length 0⟩)
        ∧ (runFrames st fs).2.frame_count = st.frame_count + fs.length
        ∧ (runFrames st fs).2.core = st.core
        ∧ (runFrames st fs).2.sample_frame_size = st.sample_frame_size
        ∧ (runFrames st fs).2.warmup_frames = st.warmup_frames := by
  induction fs with
  | nil => intro st _ _; simp [runFrames]
  | cons f fs ih =>
    intro st hf hc
    obtain ⟨hne, hlen⟩ := hf f (List.mem_cons_self f fs)
    have hstep := process_frame_warmup_branch hne hlen
      (by simp only [List.length_cons] at hc; omega)
    simp only [runFrames, hstep]
    have ih' := ih { st with frame_count := st.frame_count + 1,
                             acc_buffer := st.acc_buffer.drop f.length ++ f }
      (fun g hg => hf g (List.mem_cons_of_mem f hg))
      (by simp only [List.length_cons] at hc; simpa using by omega)
    obtain ⟨h1, h2, h3, h4, h5⟩ := ih'
    refine ⟨by simp [h1], ?_, h3, h4, h5⟩
    simp only [h2, List.length_cons]
    omega

/-- C3 counterexample: on the very first invocation (during warmup), the
integrator returns an all-zero acceleration array, not the raw input frame,
contradicting the claim that the first five invocations return "the raw
acceleration frame unchanged". -/
theorem C3_counterexample_warmup_zeroes_acc :
    (process_frame (mkRLSIntegrator 20 100 (1/200) (9825/10000))
        (List.replicate 20 1)).1
      = ⟨List.replicate 20 0, List.replicate 20 0, List.replicate 20 0⟩
    ∧ List.replicate 20 (1 : ℚ) ≠ List.replicate 20 (0 : ℚ) := by
  refine ⟨by decide, by decide⟩

/-- C3 (amended): with `warmup_frames = 5` and the counter incremented
before it is tested, only the first FOUR invocations (with non-empty
frames of at most `sample_frame_size` samples) return forced-zero
outputs — and the zeroed outputs include the acceleration array, which is
not the raw frame; from the fifth invocation on the integration path runs
(in particular the acceleration frame is passed through unchanged) and the
RLS state starts updating. -/
theorem C3_warmup_is_four_frames :
    (∀ (N M : Nat) (dt q : ℚ) (fs : List (List ℚ)),
        (∀ f ∈ fs, f ≠ [] ∧ f.length ≤ N) → fs.length ≤ 4 →
        (runFrames (mkRLSIntegrator N M dt q) fs).1
            = fs.map (fun f => ⟨List.replicate f.length 0, List.replicate f.length 0,
                                List.replicate f.length 0⟩)
          ∧ (runFrames (mkRLSIntegrator N M dt q) fs).2.frame_count = fs.length)
    ∧ (∀ (st : RLSState) (f : List ℚ), f ≠ [] → f.length ≤ st.sample_frame_size →
        st.warmup_frames ≤ st.frame_count + 1 →
        (process_frame st f).1.acc = f
          ∧ (process_frame st f).2.frame_count = st.frame_count + 1) := by
  constructor
  · intro N M dt q fs hf hlen
    have h := runFrames_warmup fs (mkRLSIntegrator N M dt q)
      (by simpa [mkRLSIntegrator] using hf)
      (by simp [mkRLSIntegrator]; omega)
    exact ⟨h.1, by simpa [mkRLSIntegrator] using h.2.1⟩
  · intro st f hne hlen hc
    simp only [process_frame]
    rw [if_neg (fun h => hne (List.length_eq_zero.mp h))]
    rw [if_neg (Nat.not_lt.mpr hlen)]
    rw [if_neg (Nat.not_lt.mpr hc)]
    exact ⟨rfl, rfl⟩

/-- Witness for C3 (amended) at concrete inputs. -/
theorem C3_warmup_is_four_frames_witness :
    ((runFrames (mkRLSIntegrator 1 2 1 1) [[1], [1]]).1
        = [[1], [1]].map
            (fun f : List ℚ => FrameOutput.mk (List.replicate f.length 0)
              (List.replicate f.length 0) (List.replicate f.length 0))
      ∧ (runFrames (mkRLSIntegrator 1 2 1 1) [[1], [1]]).2.frame_count = 2)
    ∧ ((process_frame { mkRLSIntegrator 1 2 1 1 with frame_count := 4 } [1]).1.acc
        = [1]) :=
  ⟨C3_warmup_is_four_frames.1 1 2 1 1 [[1], [1]] (by decide) (by decide),
   (C3_warmup_is_four_frames.2 { mkRLSIntegrator 1 2 1 1 with frame_count := 4 }
      [1] (by decide) (by decide) (by decide)).1⟩

/-- C8: when the RLS gain denominator `q + φ·P·φ` is zero, the update for
that data point is skipped: `theta` and `P` are returned unchanged and the
gain division is never taken. -/
theorem C8_zero_denominator_skips_update :
    ∀ (q t y : ℚ) (c : RLSCore),
      q + (t * (c.p00 * t + c.p01) + 1 * (c.p10 * t + c.p11)) = 0 →
      rlsUpdatePoint q t y c = c := by
  intro q t y c h
  simp only [rlsUpdatePoint]
  rw [if_pos h]

/-- Witness for C8 at a concrete degenerate covariance. -/
theorem C8_zero_denominator_skips_update_witness :
    rlsUpdatePoint 1 0 5 degenerateCore = degenerateCore :=
  C8_zero_denominator_skips_update 1 0 5 degenerateCore
    (by norm_num [degenerateCore])

/-- C10: an empty input frame returns three empty arrays and leaves the
whole integrator state (frame count, ring buffer, theta, P) unchanged; in
particular it does not consume a warmup frame. -/
theorem C10_empty_frame_is_noop :
    ∀ st : RLSState, process_frame st [] = (⟨[], [], []⟩, st) := by
  intro st
  rfl

/-! ## Claim C4: the processor's emit condition -/

lemma dequeAppend_length (maxlen : Nat) (buf : List ℚ) (x : ℚ) :
    (dequeAppend maxlen buf x).length = min (buf.length + 1) maxlen := by
  simp only [dequeAppend, List.length_drop, List.length_append, List.length_cons,
    List.length_nil]
  omega

/-- C4 counterexample: with `rls_sample_frame_size = 1`, the very first
sample already yields a non-`None` result even though the RLS integrators
have not completed warmup (the result carries `rls_warmed_up = false`),
contradicting the claim that non-`None` requires completed warmup. -/
theorem C4_counterexample_emits_before_warmup :
    (process_new_sample procDemo 0 0 0).1.isSome = true
    ∧ (process_new_sample procDemo 0 0 0).1.map ProcOutput.rls_warmed_up
        = some false := by
  refine ⟨by decide, by decide⟩

/-- C4 (amended): `process_new_sample` returns a non-`None` result iff the
internal buffer, after appending the new sample, holds at least
`rls_sample_frame_size` samples — i.e. iff at least N samples have arrived
in total.  Neither warmup completion nor the number of samples since the
previous emit gates the result; the output merely carries the
`rls_warmed_up` flag. -/
theorem C4_emits_iff_buffer_reaches_frame_size :
    ∀ (st : ProcState) (ax ay az : ℚ),
      st.rls_sample_frame_size ≤ st.max_buffer_len →
      ((process_new_sample st ax ay az).1.isSome = true ↔
        st.rls_sample_frame_size ≤ st.bufX.length + 1) := by
  intro st ax ay az hmax
  have hlen := dequeAppend_length st.max_buffer_len st.bufX (ax * st.gravity_g)
  simp only [process_new_sample]
  by_cases h : st.rls_sample_frame_size ≤
      (dequeAppend st.max_buffer_len st.bufX (ax * st.gravity_g)).length
  · rw [if_pos h]
    simp only [Option.isSome_some, true_iff]
    omega
  · rw [if_neg h]
    simp only [Option.isSome_none, Bool.false_eq_true, false_iff]
    omega

/-- Witness for C4 (amended) at a concrete fresh processor. -/
theorem C4_emits_iff_buffer_reaches_frame_size_witness :
    (process_new_sample procDemo 0 0 0).1.isSome = true ↔
      procDemo.rls_sample_frame_size ≤ procDemo.bufX.length + 1 :=
  C4_emits_iff_buffer_reaches_frame_size procDemo 0 0 0 (by decide)

/-! ## Claim C5: the decoder-storer stage -/

/-- C5 counterexample: a decoded ANGLE packet is dropped by the decoder
thread — no CSV row is written and nothing is enqueued — contradicting the
claim that ANGLE packets produce CSV rows. -/
theorem C5_counterexample_angle_packet_dropped :
    decoder_step anglePacketInfo = DecoderEvent.dropped
    ∧ anglePacketInfo.ptype = PACKET_TYPE_ANGLE
    ∧ decoder_run true true [anglePacketInfo] = ([], []) := by
  refine ⟨by decide, by decide, by decide⟩

/-- C5 (amended): the decoder-storer stage drops every error packet and
every non-ACCELERATION packet (ANGLE included — no CSV row is ever written
for them); each ACCELERATION packet's sample is written to the decoded-data
CSV sink exactly when storage is configured, and enqueued onto the
decoded-data queue exactly when the queue exists, in arrival order. -/
theorem C5_only_acceleration_packets_flow :
    ∀ (s q : Bool) (ps : List PacketInfo),
      decoder_run s q ps
        = ((if s then acc_samples ps else []), (if q then acc_samples ps else [])) := by
  intro s q ps
  induction ps with
  | nil => simp [decoder_run, acc_samples]
  | cons p rest ih =>
    simp only [decoder_run, ih]
    by_cases he : p.hasError
    · have h1 : decoder_step p = DecoderEvent.dropped := by simp [decoder_step, he]
      have h2 : acc_samples (p :: rest) = acc_samples rest := by
        simp [acc_samples, List.filterMap_cons, he]
      rw [h1, h2]
    · by_cases ht : p.ptype = PACKET_TYPE_ACC
      · have h1 : decoder_step p = DecoderEvent.handled (p.acc_x, p.acc_y, p.acc_z) := by
          simp [decoder_step, he, ht]
        have h2 : acc_samples (p :: rest)
            = (p.acc_x, p.acc_y, p.acc_z) :: acc_samples rest := by
          simp [acc_samples, List.filterMap_cons, he, ht]
        rw [h1, h2]
        cases s <;> cases q <;> simp
      · have h1 : decoder_step p = DecoderEvent.dropped := by
          simp [decoder_step, he, ht]
        have h2 : acc_samples (p :: rest) = acc_samples rest := by
          simp [acc_samples, List.filterMap_cons, he, ht]
        rw [h1, h2]

/-! ## Claim C6: register read -/

lemma shiftLeft8_lor_eq {hi lo : Nat} (h : lo < 256) :
    hi <<< 8 ||| lo = hi * 256 + lo := by
  apply Nat.eq_of_testBit_eq
  intro j
  rw [Nat.testBit_lor, Nat.testBit_shiftLeft]
  rw [show hi * 256 + lo = 2 ^ 8 * hi + lo by ring]
  rw [Nat.testBit_mul_pow_two_add hi (show lo < 2 ^ 8 by simpa using h) j]
  by_cases hj : j < 8
  · have hge : ¬ (j ≥ 8) := by omega
    simp [hj, hge]
  · have hge : j ≥ 8 := by omega
    have hlo : lo.testBit j = false := by
      apply Nat.testBit_lt_two_pow
      calc lo < 256 := h
        _ = 2 ^ 8 := by norm_num
        _ ≤ 2 ^ j := Nat.pow_le_pow_right (by norm_num) hge
    simp [hj, hge, hlo]

/-- C6: a register read sends exactly `[0xFF, 0xAA, 0x27, reg, 0x00]`; the
first `0x5F` response within the timeout yields the first 16-bit
little-endian value of its payload (`payload[1]·256 + payload[0]` — only
the requested register is exposed); an exhausted stream (timeout with no
response) yields `None` rather than an error. -/
theorem C6_register_read_semantics :
    (∀ reg : Nat, read_register_command reg = [0xFF, 0xAA, 0x27, reg % 256, 0x00])
    ∧ (∀ (noise : List RxPacket) (payload : List Nat) (rest : List RxPacket),
        (∀ x ∈ noise, x = RxPacket.otherPacket ∨ x = RxPacket.checksumError) →
        2 ≤ payload.length →
        scan_read_response (noise ++ RxPacket.regResponse payload :: rest)
          = .ok (some (payload.getD 1 0 <<< 8 ||| payload.getD 0 0)))
    ∧ (∀ stream : List RxPacket,
        (∀ x ∈ stream, x = RxPacket.otherPacket ∨ x = RxPacket.checksumError) →
        scan_read_response stream = .ok none)
    ∧ (∀ hi lo : Nat, lo < 256 → hi <<< 8 ||| lo = hi * 256 + lo) := by
  refine ⟨fun reg => rfl, ?_, ?_, fun hi lo h => shiftLeft8_lor_eq h⟩
  · intro noise payload rest hn hp
    induction noise with
    | nil => simp [scan_read_response, hp]
    | cons x t ih =>
      rcases hn x (List.mem_cons_self x t) with rfl | rfl
      · simpa [scan_read_response] using
          ih (fun y hy => hn y (List.mem_cons_of_mem _ hy))
      · simpa [scan_read_response] using
          ih (fun y hy => hn y (List.mem_cons_of_mem _ hy))
  · intro stream hn
    induction stream with
    | nil => simp [scan_read_response]
    | cons x t ih =>
      rcases hn x (List.mem_cons_self x t) with rfl | rfl
      · simpa [scan_read_response] using
          ih (fun y hy => hn y (List.mem_cons_of_mem _ hy))
      · simpa [scan_read_response] using
          ih (fun y hy => hn y (List.mem_cons_of_mem _ hy))

/-- Witness for C6 at a concrete response stream. -/
theorem C6_register_read_semantics_witness :
    read_register_command 0x02 = [0xFF, 0xAA, 0x27, 0x02, 0x00]
    ∧ scan_read_response
        [RxPacket.otherPacket, RxPacket.regResponse [0x1E, 0x00, 0, 0, 0, 0, 0, 0]]
        = .ok (some (0x00 <<< 8 ||| 0x1E))
    ∧ scan_read_response [RxPacket.otherPacket, RxPacket.checksumError] = .ok none :=
  ⟨by rw [C6_register_read_semantics.1 0x02],
   C6_register_read_semantics.2.1 [RxPacket.otherPacket]
     [0x1E, 0x00, 0, 0, 0, 0, 0, 0] [] (by decide) (by decide),
   C6_register_read_semantics.2.2.1 [RxPacket.otherPacket, RxPacket.checksumError]
     (by decide)⟩

/-! ## Claim C7: factory reset -/

/-- C7: the factory-reset composite performs exactly Unlock, then
write(SAVE, 0x0001), then Save (write(SAVE, 0x0000)), then Restart
(write(SAVE, 0x00FF)), in that order; a failing step aborts the remaining
steps and the operation returns `false`, its command trace identifying the
step that failed. -/
theorem C7_factory_reset_sequence :
    unlock_command = [0xFF, 0xAA, 0x69, 0x88, 0xB5]
    ∧ factory_reset_command = [0xFF, 0xAA, 0x00, 0x01, 0x00]
    ∧ save_command = [0xFF, 0xAA, 0x00, 0x00, 0x00]
    ∧ restart_command = [0xFF, 0xAA, 0x00, 0xFF, 0x00]
    ∧ (∀ ok : List Nat → Bool,
        (ok unlock_command = false →
          factory_reset ok = (false, [unlock_command]))
        ∧ (ok unlock_command = true → ok factory_reset_command = false →
          factory_reset ok = (false, [unlock_command, factory_reset_command]))
        ∧ (ok unlock_command = true → ok factory_reset_command = true →
          ok save_command = false →
          factory_reset ok
            = (false, [unlock_command, factory_reset_command, save_command]))
        ∧ (ok unlock_command = true → ok factory_reset_command = true →
          ok save_command = true → ok restart_command = false →
          factory_reset ok
            = (false, [unlock_command, factory_reset_command, save_command,
                       restart_command]))
        ∧ (ok unlock_command = true → ok factory_reset_command = true →
          ok save_command = true → ok restart_command = true →
          factory_reset ok
            = (true, [unlock_command, factory_reset_command, save_command,
                      restart_command]))) := by
  refine ⟨by decide, by decide, by decide, by decide, ?_⟩
  intro ok
  refine ⟨?_, ?_, ?_, ?_, ?_⟩ <;> intros <;> simp [factory_reset, *]

/-- Witness for C7: every step succeeds. -/
theorem C7_factory_reset_sequence_witness :
    factory_reset (fun _ => true)
      = (true, [unlock_command, factory_reset_command, save_command,
                restart_command]) :=
  (C7_factory_reset_sequence.2.2.2.2 (fun _ => true)).2.2.2.2 rfl rfl rfl rfl

/-! ## Claim C9: the rotating CSV sink -/

/-- C9: (i) a write at wall-clock time ≥ the open file's recorded start
time plus the rotation interval closes the file and opens a fresh one
before the row is written — the fresh file carrying exactly one header row,
written at open; (ii) a write within the rotation window appends only the
data row; (iii) reopening the latest file in continue-file mode appends
the data row with zero additional header rows. -/
theorem C9_rotation_and_header_discipline :
    (∀ (st : StorageState) (now r : Nat) (f : CsvFile),
        st.current = some f → f.start + st.rotation ≤ now →
        (write_data st now r).current
            = some { start := now, rows := [CsvRow.header, CsvRow.data r] }
          ∧ f ∈ (write_data st now r).closedFiles
          ∧ ((write_data st now r).current.map headerCount) = some 1)
    ∧ (∀ (st : StorageState) (now r : Nat) (f : CsvFile),
        st.current = some f → now < f.start + st.rotation →
        (write_data st now r).current
            = some { f with rows := f.rows ++ [CsvRow.data r] }
          ∧ ((write_data st now r).current.map headerCount) = some (headerCount f))
    ∧ (∀ (st : StorageState) (now r : Nat) (f : CsvFile),
        st.current = none → st.strategy = ReconnStrategy.continue_file →
        st.latestOnDisk = some f → now < f.start + st.rotation →
        (write_data st now r).current
            = some { f with rows := f.rows ++ [CsvRow.data r] }
          ∧ ((write_data st now r).current.map headerCount) = some (headerCount f)) := by
  refine ⟨?_, ?_, ?_⟩
  · intro st now r f hcur hrot
    simp only [write_data, hcur, open_new_file, close_current_file]
    rw [if_pos hrot]
    simp [headerCount]
  · intro st now r f hcur hrot
    simp only [write_data, hcur]
    rw [if_neg (by omega)]
    simp [hcur, headerCount, List.count_append]
  · intro st now r f hcur hstrat hdisk hrot
    simp only [write_data, hcur, hstrat, hdisk, continue_existing_file]
    rw [if_neg (by omega)]
    simp [hcur, headerCount, List.count_append]

/-- Witness for C9 at concrete storage states. -/
theorem C9_rotation_and_header_discipline_witness :
    ((write_data storageRotDemo 10 3).current
        = some { start := 10, rows := [CsvRow.header, CsvRow.data 3] }
      ∧ { start := 0, rows := [CsvRow.header, CsvRow.data 7] }
          ∈ (write_data storageRotDemo 10 3).closedFiles
      ∧ ((write_data storageRotDemo 10 3).current.map headerCount) = some 1)
    ∧ ((write_data storageContDemo 7 2).current
        = some { start := 5, rows := [CsvRow.header, CsvRow.data 1, CsvRow.data 2] }
      ∧ ((write_data storageContDemo 7 2).current.map headerCount)
          = some (headerCount { start := 5, rows := [CsvRow.header, CsvRow.data 1] })) :=
  ⟨C9_rotation_and_header_discipline.1 storageRotDemo 10 3
      { start := 0, rows := [CsvRow.header, CsvRow.data 7] } (by decide) (by decide),
   C9_rotation_and_header_discipline.2.2 storageContDemo 7 2
      { start := 5, rows := [CsvRow.header, CsvRow.data 1] }
      (by decide) (by decide) (by decide) (by decide)⟩

end HWT905
